import Mathlib

/-!
# Verification of the flagpole-docs repository content model

A shallow embedding of the declarative data in the `flagpole-docs`
repository: the sidebar navigation trees (`sidebars.ts` variants), the
Docusaurus site-configuration variants (`docusaurus.config.ts` and its two
unnamed siblings), and the front-matter of the markdown documents.  All of
the data is finite and concrete, so the embedded definitions are executable
and most properties are settled by `decide`.
-/

namespace Flagpole

/-! ## Sidebar trees

A sidebar entry in `sidebars.ts` is either a leaf naming a document by its
id — written as a plain string or as a `{ type: "doc", id }` record — or a
`{ type: "category", label, items }` node carrying an ordered list of child
entries. -/

inductive SidebarEntry where
  | leafStr (id : String)
  | leafDoc (id : String)
  | category (label : String) (items : List SidebarEntry)
deriving Repr

mutual

/-- The document ids of all leaves of an entry, in sidebar order. -/
def entryLeafIds : SidebarEntry → List String
  | .leafStr i => [i]
  | .leafDoc i => [i]
  | .category _ items => entriesLeafIds items

/-- The document ids of all leaves of a list of entries, in sidebar order. -/
def entriesLeafIds : List SidebarEntry → List String
  | [] => []
  | e :: es => entryLeafIds e ++ entriesLeafIds es

end

mutual

/-- All entries of a tree, each category followed by its descendants. -/
def entrySubEntries : SidebarEntry → List SidebarEntry
  | .leafStr i => [.leafStr i]
  | .leafDoc i => [.leafDoc i]
  | .category l items => .category l items :: entriesSubEntries items

/-- All entries reachable from a list of entries. -/
def entriesSubEntries : List SidebarEntry → List SidebarEntry
  | [] => []
  | e :: es => entrySubEntries e ++ entriesSubEntries es

end

/-- `sidebars.docs` of the short sidebar variant (`part_002`): the leaf
`"overview"` given as a plain string, then the two SDK categories. -/
def sidebarsShort : List SidebarEntry :=
  [ .leafStr "overview",
    .category "Client SDKs" [.leafStr "client/react", .leafStr "client/angular"],
    .category "Server SDKs" [.leafStr "server/nodejs"] ]

/-- `sidebars.docs` of the full sidebar variant (first document of
`part_003`): doc records for `overview` and `getting-started`, then the two
SDK categories listing all five client SDKs and both server SDKs. -/
def sidebarsFull : List SidebarEntry :=
  [ .leafDoc "overview",
    .leafDoc "getting-started",
    .category "Client SDKs"
      [ .leafStr "client/react", .leafStr "client/angular", .leafStr "client/vue",
        .leafStr "client/react-native", .leafStr "client/flutter" ],
    .category "Server SDKs" [.leafStr "server/nodejs", .leafStr "server/python"] ]

/-- `sidebars.docs` of the second document of `part_003` (identical data to
`sidebarsFull`, without the leading comment in the source). -/
def sidebarsFullB : List SidebarEntry := sidebarsFull

/-- `sidebars.docs` of the third document of `part_003`: doc records for
`overview` and `getting-started`, categories with only the React, Angular
and Node.js SDKs. -/
def sidebarsReduced : List SidebarEntry :=
  [ .leafDoc "overview",
    .leafDoc "getting-started",
    .category "Client SDKs" [.leafStr "client/react", .leafStr "client/angular"],
    .category "Server SDKs" [.leafStr "server/nodejs"] ]

/-- Every sidebar tree defined in the repository. -/
def allSidebars : List (List SidebarEntry) :=
  [sidebarsShort, sidebarsFull, sidebarsFullB, sidebarsReduced]

/-- Every leaf id appearing in any sidebar tree of the repository. -/
def allSidebarLeafIds : List String :=
  (allSidebars.map entriesLeafIds).flatten

/-! ## Markdown documents

Document ids as Docusaurus resolves them: the front-matter `id` (or, absent
that, the file-name stem) prefixed by the directory below `docs/`.  The
named files under `docs/` give `client/angular`, `client/react`,
`client/vue`, `client/react-native` (no front-matter; path-derived id) and
`server/nodejs`. -/

/-- Document ids of the markdown files with known paths under `docs/`. -/
def namedDocIds : List String :=
  ["client/angular", "client/react", "client/vue", "client/react-native",
   "server/nodejs"]

/-- Modelled from the spec: the repository also holds documentation pages
whose file names are not preserved in the source snapshot — the overview
page (front-matter `slug: /`, `title: Overview`, `sidebar_position: 1`) and
the getting-started page (front-matter `id: getting-started`,
`sidebar_position: 2`).  The sidebar and the spec address them by the ids
`overview` and `getting-started`, which places them at the `docs/` root. -/
def unnamedDocIds : List String :=
  ["overview", "getting-started"]

/-- All document ids present among the markdown documents of the repository. -/
def repoDocIds : List String := namedDocIds ++ unnamedDocIds

/-! ## Markdown front-matter

Each markdown document (some source files hold several concatenated
documents) opens with an optional front-matter block.  The fields appearing
in this repository are `id`, `title`, `slug`, `sidebar_position`, `authors`
and `tags`. -/

structure FrontMatter where
  id : Option String := none
  title : Option String := none
  slug : Option String := none
  sidebar_position : Option Nat := none
  authors : List String := []
  tags : List String := []
deriving Repr, DecidableEq

/-- A markdown document: a descriptive name for where it lives in the
source, and its front-matter block when it has one. -/
structure MarkdownDoc where
  name : String
  front : Option FrontMatter
deriving Repr, DecidableEq

/-- `docs/client/angular.md`. -/
def angularDoc : MarkdownDoc :=
  ⟨"docs/client/angular.md", some { id := some "angular", title := some "Angular SDK" }⟩

/-- `docs/client/react.md`. -/
def reactDoc : MarkdownDoc :=
  ⟨"docs/client/react.md", some { id := some "react", title := some "React" }⟩

/-- `docs/client/vue.md`. -/
def vueDoc : MarkdownDoc :=
  ⟨"docs/client/vue.md", some { id := some "vue", title := some "Vue" }⟩

/-- First document of `docs/client/react-native.md`: the React Native SDK
page, which opens directly with a `# React Native` heading and carries no
front-matter block at all. -/
def reactNativeDoc : MarkdownDoc :=
  ⟨"docs/client/react-native.md", none⟩

/-- Second document of `docs/client/react-native.md`: an overview page with
`slug: /`. -/
def reactNativeOverviewDoc : MarkdownDoc :=
  ⟨"docs/client/react-native.md second document",
   some { slug := some "/", title := some "Overview", sidebar_position := some 1 }⟩

/-- `docs/server/nodejs.md`. -/
def nodejsDoc : MarkdownDoc :=
  ⟨"docs/server/nodejs.md", some { id := some "nodejs", title := some "Node.js SDK" }⟩

/-- `blog/2024-01-15-feature-flags-complete-guide.md.md`. -/
def blogGuideDoc : MarkdownDoc :=
  ⟨"blog/2024-01-15-feature-flags-complete-guide.md.md",
   some { slug := some "feature-flags-complete-guide",
          title := some "The Complete Guide to Feature Flags in Modern Software Development",
          authors := ["flagpole-team"],
          tags := ["feature-flags", "software-development", "deployment",
                   "continuous-delivery", "react", "nodejs", "angular", "vue"] }⟩

/-- Second document concatenated in
`blog/2024-01-15-feature-flags-complete-guide.md.md`: a Node.js backend
blog post. -/
def blogNodejsBackendDoc : MarkdownDoc :=
  ⟨"blog/2024-01-15-feature-flags-complete-guide.md.md second document",
   some { slug := some "nodejs-feature-flags-backend-guide",
          title := some "Server-Side Feature Flags with Node.js - Complete Backend Implementation Guide",
          authors := ["vitor"],
          tags := ["nodejs", "backend", "server-side", "express", "api",
                   "microservices", "feature-flags"] }⟩

/-- `part_004`: a React SDK page. -/
def part004Doc : MarkdownDoc :=
  ⟨"part_004", some { id := some "react", title := some "React" }⟩

/-- `part_005`: a shorter React SDK page. -/
def part005Doc : MarkdownDoc :=
  ⟨"part_005", some { id := some "react", title := some "React" }⟩

/-- `part_006`: an Angular SDK page. -/
def part006Doc : MarkdownDoc :=
  ⟨"part_006", some { id := some "angular", title := some "Angular" }⟩

/-- `part_007`: a shorter Angular SDK page. -/
def part007Doc : MarkdownDoc :=
  ⟨"part_007", some { id := some "angular", title := some "Angular SDK" }⟩

/-- `part_008`: the overview page, `slug: /`. -/
def part008Doc : MarkdownDoc :=
  ⟨"part_008", some { slug := some "/", title := some "Overview", sidebar_position := some 1 }⟩

/-- `part_009`: a Node.js SDK page. -/
def part009Doc : MarkdownDoc :=
  ⟨"part_009", some { id := some "nodejs", title := some "Node.js SDK" }⟩

/-- The three getting-started documents concatenated in `part_010`; all
three carry the same front-matter block. -/
def part010Docs : List MarkdownDoc :=
  [ ⟨"part_010 first document",
     some { id := some "getting-started", title := some "Getting Started",
            sidebar_position := some 2 }⟩,
    ⟨"part_010 second document",
     some { id := some "getting-started", title := some "Getting Started",
            sidebar_position := some 2 }⟩,
    ⟨"part_010 third document",
     some { id := some "getting-started", title := some "Getting Started",
            sidebar_position := some 2 }⟩ ]

/-- The two blog posts concatenated in `part_011`. -/
def part011Docs : List MarkdownDoc :=
  [ ⟨"part_011 first document",
     some { slug := some "react-feature-flags-complete-guide",
            title := some "Mastering Feature Flags in React Applications - A Developer\u0027s Guide",
            authors := ["vitor"],
            tags := ["react", "feature-flags", "javascript", "frontend",
                     "hooks", "components", "jsx"] }⟩,
    ⟨"part_011 second document",
     some { slug := some "feature-flags-security-best-practices",
            title := some "Security - Protecting Your Applications and Data",
            authors := ["vitor"],
            tags := ["security", "feature-flags", "api-keys", "authentication",
                     "authorization", "react", "nodejs", "angular", "vue"] }⟩ ]

/-- Every markdown document of the repository. -/
def allMarkdownDocs : List MarkdownDoc :=
  [angularDoc, reactDoc, vueDoc, reactNativeDoc, reactNativeOverviewDoc,
   nodejsDoc, blogGuideDoc, blogNodejsBackendDoc, part004Doc, part005Doc,
   part006Doc, part007Doc, part008Doc, part009Doc] ++ part010Docs ++ part011Docs

/-! ## Site configuration variants

The repository carries three variants of `docusaurus.config.ts`: the named
file, and two unnamed siblings (`part_000`, a starter variant, and
`part_001`, a blog-enabled variant).  Optional fields that a variant does
not set are `none`. -/

/-- A navbar item or a footer link item, with the optional fields used in
this repository (`type` is the Docusaurus special item type such as
`"search"` or `"docSidebar"`). -/
structure LinkItem where
  label : Option String := none
  «to» : Option String := none
  href : Option String := none
  type : Option String := none
  position : Option String := none
  sidebarId : Option String := none
deriving Repr, DecidableEq

/-- A titled group of links in the footer. -/
structure FooterGroup where
  title : String
  items : List LinkItem
deriving Repr, DecidableEq

/-- The docs options of the classic preset. -/
structure DocsOptions where
  sidebarPath : String
  routeBasePath : String
  editUrl : Option String := none
deriving Repr, DecidableEq

/-- The blog options object of the classic preset as set in `part_001`.
The `readingTime` callback is embedded as `readingTimeCallback` below; its
only configuration datum, `wordsPerMinute = 300`, is recorded here. -/
structure BlogOptions where
  showReadingTime : Bool
  readingTimeWordsPerMinute : Nat
  editUrl : String
  blogTitle : String
  blogDescription : String
  postsPerPage : String
  blogSidebarTitle : String
  blogSidebarCount : String
deriving Repr, DecidableEq

/-- The `readingTime` callback of the `part_001` blog options: it invokes
the provided `defaultReadingTime` on the content with `wordsPerMinute`
fixed at 300.  A pure function of its inputs. -/
def readingTimeCallback (defaultReadingTime : String → Nat → Nat)
    (content : String) : Nat :=
  defaultReadingTime content 300

/-- The `blog` field of the classic preset: absent (Docusaurus default,
enabled at `/blog`), explicitly `false` (disabled), or an options object. -/
inductive BlogSetting where
  | defaultEnabled
  | disabled
  | custom (opts : BlogOptions)
deriving Repr, DecidableEq

/-- Options of the `@easyops-cn/docusaurus-search-local` plugin.  `none`
means the option is not set in that variant.  `blogRouteBasePath` is the
literal `false` in the main variant and a path string in `part_001`,
modelled as `some none` and `some (some path)`.  The `translations` table
of UI strings in the main variant is plain display text and is not
modelled. -/
structure SearchLocalOptions where
  hashed : Bool
  language : List String
  docsRouteBasePath : Option String := none
  blogRouteBasePath : Option (Option String) := none
  indexDocs : Option Bool := none
  indexBlog : Option Bool := none
  indexPages : Option Bool := none
  removeDefaultStopWordFilter : Option Bool := none
  highlightSearchTermsOnTargetPage : Option Bool := none
  searchResultContextMaxLength : Option Nat := none
  explicitSearchResultPath : Option Bool := none
  searchBarShortcut : Option Bool := none
  searchBarShortcutHint : Option Bool := none
deriving Repr, DecidableEq

/-- The `resolve.alias` mapping returned by the `configureWebpack` function
of the custom plugin; the same text appears in all three configuration
variants. -/
def customPluginAlias : List (String × String) :=
  [("@site/docs/overview.md", "@site/docs/index.md"),
   ("@site/docs/docs/overview.md", "@site/docs/index.md")]

/-- One configuration variant, flattened: site identity, link-checking
settings, i18n, preset docs and blog options, search-plugin options, navbar
items, footer link groups and the copyright line. -/
structure SiteConfig where
  title : String
  tagline : String
  favicon : String
  url : String
  baseUrl : String
  organizationName : String
  projectName : String
  onBrokenLinks : Option String := none
  onBrokenMarkdownLinks : Option String := none
  defaultLocale : String
  locales : List String
  docs : DocsOptions
  blog : BlogSetting
  search : SearchLocalOptions
  navbarItems : List LinkItem
  footerLinks : List FooterGroup
  copyright : String
deriving Repr, DecidableEq

/-- `docusaurus.config.ts` as evaluated in year `y`: the only
time-dependent part is the copyright template literal, which interpolates
`new Date().getFullYear()` at evaluation time. -/
def mainConfigAt (y : Nat) : SiteConfig :=
  { title := "FlagPole - Feature Flags Documentation"
    tagline := "Documentation for FlagPole Feature Flags Platform"
    favicon := "img/favicon.ico"
    url := "https://app.useflagpole.dev"
    baseUrl := "/"
    organizationName := "FlagPole"
    projectName := "FlagPole feature-flags-docs"
    onBrokenLinks := some "throw"
    onBrokenMarkdownLinks := some "warn"
    defaultLocale := "en"
    locales := ["en"]
    docs := { sidebarPath := "./sidebars.ts", routeBasePath := "/",
              editUrl := some "https://github.com/flagpole-corp/flagpole-docs/tree/main/" }
    blog := .disabled
    search := { hashed := true, language := ["en"],
                docsRouteBasePath := some "/", blogRouteBasePath := some none,
                indexDocs := some true, indexBlog := some false,
                indexPages := some false,
                removeDefaultStopWordFilter := some true,
                highlightSearchTermsOnTargetPage := some true,
                searchResultContextMaxLength := some 50,
                explicitSearchResultPath := some true,
                searchBarShortcut := some true,
                searchBarShortcutHint := some true }
    navbarItems :=
      [ { type := some "search", position := some "right" },
        { href := some "https://github.com/flagpole-corp/flagpole-docs",
          label := some "GitHub", position := some "right" } ]
    footerLinks :=
      [ ⟨"Docs",
         [ { label := some "Getting Started", «to» := some "/getting-started" },
           { label := some "Node.js SDK", «to» := some "/server/nodejs" },
           { label := some "React SDK", «to» := some "/client/react" } ]⟩,
        ⟨"Community",
         [ { label := some "Discord", href := some "https://discord.gg/flagpole" },
           { label := some "GitHub", href := some "https://github.com/flagpole-corp" } ]⟩,
        ⟨"More",
         [ { label := some "Website", href := some "https://useflagpole.dev" },
           { label := some "GitHub",
             href := some "https://github.com/flagpole-corp/flagpole-docs" } ]⟩ ]
    copyright := toString y ++ " FlagPole LLC." }

/-- The starter configuration variant (`part_000`) as evaluated in year
`y`: no link-checking fields, no preset blog entry (so the blog is enabled
with Docusaurus defaults at `/blog`), minimal search options, and a footer
with an empty Community group (all of its entries are commented out in the
source). -/
def starterConfigAt (y : Nat) : SiteConfig :=
  { title := "FlagPole - Feature Flags Documentation"
    tagline := "Documentation for FlagPole Feature Flags Platform"
    favicon := "img/favicon.ico"
    url := "https://app.useflagpole.dev"
    baseUrl := "/"
    organizationName := "FlagPole"
    projectName := "FlagPole feature-flags-docs"
    defaultLocale := "en"
    locales := ["en"]
    docs := { sidebarPath := "./sidebars.ts", routeBasePath := "/" }
    blog := .defaultEnabled
    search := { hashed := true, language := ["en"] }
    navbarItems :=
      [ { href := some "https://github.com/flagpole-corp/flagpole-docs",
          label := some "GitHub", position := some "right" } ]
    footerLinks :=
      [ ⟨"Docs", [ { label := some "Tutorial", «to» := some "/" } ]⟩,
        ⟨"Community", []⟩,
        ⟨"More",
         [ { label := some "Blog", «to» := some "/blog" },
           { label := some "GitHub",
             href := some "https://github.com/flagpole-corp/flagpole-docs" } ]⟩ ]
    copyright := toString y ++ " FlagPole LLC." }

/-- The blog-enabled configuration variant (`part_001`) as evaluated in
year `y`.  Note: its `docs.routeBasePath` is the string `"/"` (the comment
in the source says Changed to /docs, but the value was left at `"/"`),
while its footer links point at `/docs/...` paths and its search plugin is
told `docsRouteBasePath = "/docs"`; `onBrokenLinks` is lowered to
`"warn"`. -/
def blogConfigAt (y : Nat) : SiteConfig :=
  { title := "FlagPole - Feature Flags Documentation"
    tagline := "Documentation for FlagPole Feature Flags Platform"
    favicon := "img/favicon.ico"
    url := "https://app.useflagpole.dev"
    baseUrl := "/"
    organizationName := "FlagPole"
    projectName := "FlagPole feature-flags-docs"
    onBrokenLinks := some "warn"
    onBrokenMarkdownLinks := some "warn"
    defaultLocale := "en"
    locales := ["en"]
    docs := { sidebarPath := "./sidebars.ts", routeBasePath := "/",
              editUrl := some "https://github.com/flagpole-corp/flagpole-docs/tree/main/" }
    blog := .custom
      { showReadingTime := true
        readingTimeWordsPerMinute := 300
        editUrl := "https://github.com/flagpole-corp/flagpole-docs/tree/main/"
        blogTitle := "FlagPole Blog"
        blogDescription := "Feature flags insights, tutorials, and best practices"
        postsPerPage := "ALL"
        blogSidebarTitle := "All posts"
        blogSidebarCount := "ALL" }
    search := { hashed := true, language := ["en"],
                docsRouteBasePath := some "/docs",
                blogRouteBasePath := some (some "/blog"),
                indexDocs := some true, indexBlog := some true,
                indexPages := some false,
                removeDefaultStopWordFilter := some true,
                highlightSearchTermsOnTargetPage := some true,
                searchResultContextMaxLength := some 50,
                explicitSearchResultPath := some true,
                searchBarShortcut := some true,
                searchBarShortcutHint := some true }
    navbarItems :=
      [ { type := some "docSidebar", sidebarId := some "docs",
          position := some "left", label := some "Docs" },
        { «to» := some "/blog", label := some "Blog", position := some "left" },
        { type := some "search", position := some "right" },
        { href := some "https://github.com/flagpole-corp/flagpole-docs",
          label := some "GitHub", position := some "right" } ]
    footerLinks :=
      [ ⟨"Docs",
         [ { label := some "Getting Started", «to» := some "/docs/getting-started" },
           { label := some "Node.js SDK", «to» := some "/docs/server/nodejs" },
           { label := some "React SDK", «to» := some "/docs/client/react" } ]⟩,
        ⟨"Community",
         [ { label := some "Discord", href := some "https://discord.gg/flagpole" },
           { label := some "GitHub", href := some "https://github.com/flagpole-corp" } ]⟩,
        ⟨"More",
         [ { label := some "Blog", «to» := some "/blog" },
           { label := some "Website", href := some "https://useflagpole.dev" },
           { label := some "GitHub",
             href := some "https://github.com/flagpole-corp/flagpole-docs" } ]⟩ ]
    copyright := toString y ++ " FlagPole LLC." }

/-- The three configuration variants, evaluated in year `y`. -/
def configVariantsAt (y : Nat) : List SiteConfig :=
  [mainConfigAt y, starterConfigAt y, blogConfigAt y]

/-! ## Routes and internal links -/

/-- A documentation page together with the route slug its front-matter
sets, when any: the overview page sets `slug: /`; every other page routes
by its id. -/
structure DocPage where
  id : String
  slug : Option String := none
deriving Repr, DecidableEq

/-- The documentation pages of the repository with their slugs. -/
def docPages : List DocPage :=
  [ ⟨"overview", some "/"⟩, ⟨"getting-started", none⟩,
    ⟨"client/react", none⟩, ⟨"client/angular", none⟩, ⟨"client/vue", none⟩,
    ⟨"client/react-native", none⟩, ⟨"server/nodejs", none⟩ ]

/-- Whether the string `s` starts with `p`, computed on the character
lists (kernel-reducible). -/
def strStartsWith (s p : String) : Bool :=
  p.data.isPrefixOf s.data

/-- Whether the string `s` ends with `p`, computed on the character lists
(kernel-reducible). -/
def strEndsWith (s p : String) : Bool :=
  p.data.isSuffixOf s.data

/-- The route of a documentation page under a docs `routeBasePath`: its
slug when given, otherwise the base path joined with the id. -/
def docRoute (base : String) (p : DocPage) : String :=
  match p.slug with
  | some s => s
  | none => if strEndsWith base "/" then base ++ p.id else base ++ "/" ++ p.id

/-- Whether the blog plugin is active in a configuration (anything but an
explicit `blog: false`). -/
def blogEnabled (c : SiteConfig) : Bool :=
  match c.blog with
  | .disabled => false
  | _ => true

/-- The routes the site generates from a configuration: one route per
documentation page under the docs `routeBasePath`, plus the blog index
route when the blog is enabled. -/
def routesOf (c : SiteConfig) : List String :=
  docPages.map (docRoute c.docs.routeBasePath) ++
    (if blogEnabled c then ["/blog"] else [])

/-- Every internal link target (`to` path) declared by the navbar items and
footer link items of a configuration. -/
def toPaths (c : SiteConfig) : List String :=
  c.navbarItems.filterMap LinkItem.«to» ++
    ((c.footerLinks.map FooterGroup.items).flatten.filterMap LinkItem.«to»)

/-! ## Derived checks -/

/-- Whether a sidebar entry, when it is a category, has a non-empty items
list (leaves pass trivially). -/
def categoryNonEmpty : SidebarEntry → Bool
  | .category _ items => !items.isEmpty
  | _ => true

/-- Whether a document has a front-matter block carrying a title and an id
or a slug. -/
def hasWellFormedFront (d : MarkdownDoc) : Bool :=
  match d.front with
  | none => false
  | some f => f.title.isSome && (f.id.isSome || f.slug.isSome)

/-- Whether the ordering field is present where applicable: on the overview
pages (`slug: /`) and the getting-started pages. -/
def hasOrderingWhereApplicable (d : MarkdownDoc) : Bool :=
  match d.front with
  | none => true
  | some f =>
      if f.slug == some "/" || f.id == some "getting-started" then
        f.sidebar_position.isSome
      else true

/-- Whether a broken-link setting is unset, or set to one of the two values
the external tool accepts for report-or-fail behaviour. -/
def validBrokenLinkSetting : Option String → Bool
  | none => true
  | some s => s == "warn" || s == "throw"

/-- The docSidebar navbar item of the `part_001` variant: labelled `Docs`,
with neither a `to` path nor an `href`. -/
def docSidebarNavItem : LinkItem :=
  { type := some "docSidebar", sidebarId := some "docs",
    position := some "left", label := some "Docs" }

/-- Whether an item carries exactly one link target of the right shape: an
internal `to` path beginning with `/`, or an external `href` beginning with
`https://`, never both. -/
def exactlyOneTarget (it : LinkItem) : Bool :=
  match it.«to», it.href with
  | some t, none => strStartsWith t "/"
  | none, some h => strStartsWith h "https://"
  | _, _ => false

/-- Whether an item is labelled and declares no special item type. -/
def labelledPlainItem (it : LinkItem) : Bool :=
  it.label.isSome && it.type == none

/-- All footer link items of a configuration, across its groups. -/
def footerItems (c : SiteConfig) : List LinkItem :=
  (c.footerLinks.map FooterGroup.items).flatten

/-- The site identity fields of a configuration variant. -/
def identityFields (c : SiteConfig) :
    String × String × String × String × String × String × String :=
  (c.title, c.tagline, c.favicon, c.url, c.baseUrl,
   c.organizationName, c.projectName)

/-! ## Claims -/

/-- C1 fails as stated: `client/flutter` is a leaf id of the full sidebar
tree of `part_003`, but no markdown document of the repository has that id;
likewise `server/python`. -/
theorem c1_counterexample :
    "client/flutter" ∈ allSidebarLeafIds ∧ "client/flutter" ∉ repoDocIds ∧
      "server/python" ∈ allSidebarLeafIds ∧ "server/python" ∉ repoDocIds := by
  decide

/-- C1 (amended): every sidebar leaf id appearing in any sidebar tree of
the repository, other than `client/flutter` and `server/python`,
corresponds to an existing markdown document of the repository. -/
theorem c1_leaf_ids_resolve :
    ∀ i ∈ allSidebarLeafIds,
      i ≠ "client/flutter" → i ≠ "server/python" → i ∈ repoDocIds := by
  decide

/-- Witness for C1, instantiated at the leaf id `overview`. -/
theorem c1_leaf_ids_resolve_witness : "overview" ∈ repoDocIds :=
  c1_leaf_ids_resolve "overview" (by decide) (by decide) (by decide)

/-- C2 fails as stated: in the `part_001` variant the footer link target
`/docs/getting-started` is declared, but the docs `routeBasePath` of that
variant is `"/"`, so the site serves `/getting-started` and no route
`/docs/getting-started` exists. -/
theorem c2_counterexample :
    "/docs/getting-started" ∈ toPaths (blogConfigAt 2024) ∧
      "/docs/getting-started" ∉ routesOf (blogConfigAt 2024) := by
  decide

/-- C2 (amended): every internal `to` path of the main and starter variants
resolves to a route of the site; in the `part_001` variant the `to` paths
not beginning with `/docs/` resolve, while its three `/docs/...` footer
paths resolve to no route, since its docs `routeBasePath` is `"/"`, not
`"/docs"`. -/
theorem c2_internal_links_resolve (y : Nat) :
    (∀ p ∈ toPaths (mainConfigAt y), p ∈ routesOf (mainConfigAt y)) ∧
    (∀ p ∈ toPaths (starterConfigAt y), p ∈ routesOf (starterConfigAt y)) ∧
    (∀ p ∈ toPaths (blogConfigAt y),
        strStartsWith p "/docs/" = false → p ∈ routesOf (blogConfigAt y)) ∧
    (∀ p ∈ toPaths (blogConfigAt y),
        strStartsWith p "/docs/" = true → p ∉ routesOf (blogConfigAt y)) := by
  show (∀ p ∈ toPaths (mainConfigAt 0), p ∈ routesOf (mainConfigAt 0)) ∧
    (∀ p ∈ toPaths (starterConfigAt 0), p ∈ routesOf (starterConfigAt 0)) ∧
    (∀ p ∈ toPaths (blogConfigAt 0),
        strStartsWith p "/docs/" = false → p ∈ routesOf (blogConfigAt 0)) ∧
    (∀ p ∈ toPaths (blogConfigAt 0),
        strStartsWith p "/docs/" = true → p ∉ routesOf (blogConfigAt 0))
  decide

/-- Witness for C2, instantiated at `/getting-started` in the main variant
and `/blog` in the `part_001` variant. -/
theorem c2_internal_links_resolve_witness :
    "/getting-started" ∈ routesOf (mainConfigAt 2024) ∧
      "/blog" ∈ routesOf (blogConfigAt 2024) :=
  ⟨(c2_internal_links_resolve 2024).1 "/getting-started" (by decide),
   (c2_internal_links_resolve 2024).2.2.1 "/blog" (by decide) (by decide)⟩

/-- C3 fails as stated: the copyright line interpolates the current year,
so two evaluations of the configuration in different years differ. -/
theorem c3_counterexample :
    mainConfigAt 2024 ≠ mainConfigAt 2025 ∧
      (mainConfigAt 2024).copyright = "2024 FlagPole LLC." ∧
      (mainConfigAt 2025).copyright = "2025 FlagPole LLC." := by
  decide

/-- C3 (amended): every field of every configuration variant other than the
copyright line is independent of the evaluation time; the copyright line
depends only on the evaluation year; and the `readingTime` callback of the
`part_001` blog options is a pure function of its arguments (it applies the
supplied default with `wordsPerMinute = 300`). -/
theorem c3_static_except_copyright (y z : Nat) :
    { mainConfigAt y with copyright := "" }
        = { mainConfigAt z with copyright := "" } ∧
    { starterConfigAt y with copyright := "" }
        = { starterConfigAt z with copyright := "" } ∧
    { blogConfigAt y with copyright := "" }
        = { blogConfigAt z with copyright := "" } ∧
    (mainConfigAt y).copyright = toString y ++ " FlagPole LLC." ∧
    (∀ f c, readingTimeCallback f c = f c 300) :=
  ⟨rfl, rfl, rfl, rfl, fun _ _ => rfl⟩

/-- C4 fails as stated: the React Native SDK page has no front-matter block
at all, hence no id and no title. -/
theorem c4_counterexample :
    reactNativeDoc ∈ allMarkdownDocs ∧ reactNativeDoc.front = none := by
  decide

/-- C4 (amended): every markdown document of the repository except the
React Native SDK page has a front-matter block with `title` present and an
`id` or a `slug` (the overview pages and the blog posts carry a slug in
place of an id), and the ordering field `sidebar_position` is present on
the overview and getting-started pages. -/
theorem c4_front_matter_well_formed :
    (∀ d ∈ allMarkdownDocs,
        d.name ≠ "docs/client/react-native.md" → hasWellFormedFront d = true) ∧
    (∀ d ∈ allMarkdownDocs, hasOrderingWhereApplicable d = true) := by
  decide

/-- Witness for C4, instantiated at the Angular SDK page. -/
theorem c4_front_matter_well_formed_witness :
    hasWellFormedFront angularDoc = true :=
  c4_front_matter_well_formed.1 angularDoc (by decide) (by decide)

/-- C5: in every configuration variant that sets them, `onBrokenLinks` and
`onBrokenMarkdownLinks` each take a value in the set of the two strings
warn and throw (the main variant sets throw and warn, `part_001` sets warn
twice, the starter variant leaves both unset). -/
theorem c5_broken_link_settings (y : Nat) :
    ((configVariantsAt y).all fun c =>
        validBrokenLinkSetting c.onBrokenLinks &&
          validBrokenLinkSetting c.onBrokenMarkdownLinks) = true := by
  show ((configVariantsAt 0).all fun c =>
      validBrokenLinkSetting c.onBrokenLinks &&
        validBrokenLinkSetting c.onBrokenMarkdownLinks) = true
  decide

/-- C6: the custom plugin maps both overview-document paths, and only
those, to the single target `@site/docs/index.md`, and the local-search
plugin of the main configuration is configured with `hashed = true`,
language list `en`, docs route base path `/`, blog route base path `false`,
and `removeDefaultStopWordFilter = true`. -/
theorem c6_plugin_options (y : Nat) :
    customPluginAlias.lookup "@site/docs/overview.md"
        = some "@site/docs/index.md" ∧
    customPluginAlias.lookup "@site/docs/docs/overview.md"
        = some "@site/docs/index.md" ∧
    (customPluginAlias.all fun kv => kv.2 == "@site/docs/index.md") = true ∧
    (mainConfigAt y).search.hashed = true ∧
    (mainConfigAt y).search.language = ["en"] ∧
    (mainConfigAt y).search.docsRouteBasePath = some "/" ∧
    (mainConfigAt y).search.blogRouteBasePath = some none ∧
    (mainConfigAt y).search.removeDefaultStopWordFilter = some true :=
  ⟨by decide, by decide, by decide, rfl, rfl, rfl, rfl, rfl⟩

/-- C7: every entry of every sidebar tree is by the shape of the data
either a leaf (a string id or a doc record) or a category with a label and
an ordered list of children, and every category entry occurring anywhere in
any tree has a non-empty items list. -/
theorem c7_categories_non_empty :
    ((allSidebars.map entriesSubEntries).flatten.all categoryNonEmpty)
      = true := by
  decide

/-- C8: the three configuration variants agree pairwise on the site
identity fields title, tagline, favicon, url, baseUrl, organizationName
and projectName. -/
theorem c8_identity_fields_agree (y : Nat) :
    identityFields (starterConfigAt y) = identityFields (mainConfigAt y) ∧
      identityFields (blogConfigAt y) = identityFields (mainConfigAt y) :=
  ⟨rfl, rfl⟩

/-- C9: in every configuration variant, the i18n default locale `en` is a
member of the i18n locales list. -/
theorem c9_default_locale_in_locales (y : Nat) :
    ((configVariantsAt y).all fun c =>
        c.locales.contains c.defaultLocale) = true := by
  show ((configVariantsAt 0).all fun c =>
      c.locales.contains c.defaultLocale) = true
  decide

/-- C10 fails as stated: the docSidebar navbar item of the `part_001`
variant is labelled `Docs` yet carries neither a `to` path nor an `href`
(the external tool derives its link from `sidebarId`). -/
theorem c10_counterexample :
    docSidebarNavItem ∈ (blogConfigAt 2024).navbarItems ∧
      docSidebarNavItem.label = some "Docs" ∧
      docSidebarNavItem.«to» = none ∧ docSidebarNavItem.href = none := by
  decide

/-- C10 (amended): every labelled navbar item that declares no special item
type, and every footer link item, in every configuration variant carries
exactly one link target — an internal `to` path beginning with `/` or an
external `href` beginning with `https://` — and never both. -/
theorem c10_one_link_target (y : Nat) :
    ((configVariantsAt y).all fun c =>
        ((c.navbarItems.filter labelledPlainItem).all exactlyOneTarget) &&
          ((footerItems c).all exactlyOneTarget)) = true := by
  show ((configVariantsAt 0).all fun c =>
      ((c.navbarItems.filter labelledPlainItem).all exactlyOneTarget) &&
        ((footerItems c).all exactlyOneTarget)) = true
  decide

/-- Witness for C3, instantiated at the years 2024 and 2025. -/
theorem c3_static_except_copyright_witness :
    (mainConfigAt 2024).copyright = toString 2024 ++ " FlagPole LLC." :=
  (c3_static_except_copyright 2024 2025).2.2.2.1

/-- Witness for C5, instantiated at the year 2024. -/
theorem c5_broken_link_settings_witness :
    ((configVariantsAt 2024).all fun c =>
        validBrokenLinkSetting c.onBrokenLinks &&
          validBrokenLinkSetting c.onBrokenMarkdownLinks) = true :=
  c5_broken_link_settings 2024

/-- Witness for C6, instantiated at the year 2024. -/
theorem c6_plugin_options_witness :
    (mainConfigAt 2024).search.hashed = true ∧
      customPluginAlias.lookup "@site/docs/overview.md"
        = some "@site/docs/index.md" :=
  ⟨(c6_plugin_options 2024).2.2.2.1, (c6_plugin_options 2024).1⟩

/-- Witness for C8, instantiated at the year 2024. -/
theorem c8_identity_fields_agree_witness :
    identityFields (starterConfigAt 2024) = identityFields (mainConfigAt 2024) :=
  (c8_identity_fields_agree 2024).1

/-- Witness for C9, instantiated at the year 2024. -/
theorem c9_default_locale_in_locales_witness :
    ((configVariantsAt 2024).all fun c =>
        c.locales.contains c.defaultLocale) = true :=
  c9_default_locale_in_locales 2024

/-- Witness for C10, instantiated at the year 2024. -/
theorem c10_one_link_target_witness :
    ((configVariantsAt 2024).all fun c =>
        ((c.navbarItems.filter labelledPlainItem).all exactlyOneTarget) &&
          ((footerItems c).all exactlyOneTarget)) = true :=
  c10_one_link_target 2024

end Flagpole
